import Mathlib

/-!
Verification of the readiness-verification harness in
`examples/examples_test.py` and the example application
`examples/rules_venv/flask_hello_world.py`.

The harness (`FlaskExamplesTest._run_flask_target`) launches an external
process, polls `http://127.0.0.1:<port>/` until a response is read or the
attempt budget is exhausted, compares the body against the literal
"hello world!", and always runs a cleanup sequence. The class-level
`tearDownClass` audits the registry of tested examples against the example
directories discovered on disk.

We embed the harness shallowly. The external world of one run is a
`RunEnv`: whether the example directory exists, the result of the single
`process.poll()` call right after launch, an oracle giving the outcome of
each `urlopen` attempt, and whether the graceful `process.wait(timeout=5)`
times out. The harness itself is the deterministic function
`runFlaskTarget`, which also produces the ordered trace of observable
events (launch, status poll, HTTP attempts, sleeps, cleanup steps).
-/

namespace PexExamples

/-- The outcome of one `urlopen` attempt in the polling loop of
`_run_flask_target`. `response body` models `urlopen` returning normally
(a success-status HTTP response whose body decodes to `body`);
`httpError msg` models `urllib.error.HTTPError` being raised (an HTTP
response carrying an error status); `urlError msg` models
`urllib.error.URLError` (a connection-level failure: refused, timeout,
DNS, ...). In the source both exception types are caught by the same
`except (HTTPError, URLError)` clause. -/
inductive AttemptOutcome where
  | response (body : String)
  | httpError (msg : String)
  | urlError (msg : String)
deriving DecidableEq

/-- `True` for the attempt outcomes that the `except (HTTPError, URLError)`
clause catches, i.e. the ones the loop logs and retries. -/
def AttemptOutcome.isRetryable : AttemptOutcome → Bool
  | .response _ => false
  | .httpError _ => true
  | .urlError _ => true

/-- `True` exactly for connection-level errors (`URLError` proper). -/
def AttemptOutcome.isConnError : AttemptOutcome → Bool
  | .urlError _ => true
  | _ => false

/-- Observable events of one `_run_flask_target` run, in program order. -/
inductive Event where
  | launch
  | pollStatus
  | httpAttempt (i : Nat)
  | sleepInterval
  | terminate
  | waitGrace
  | kill
  | waitFinal
  | sleepPostCleanup
deriving DecidableEq

/-- `True` exactly on `httpAttempt` events. -/
def Event.isHttpAttempt : Event → Bool
  | .httpAttempt _ => true
  | _ => false

/-- `True` exactly on the `pollStatus` event. -/
def Event.isPollStat : Event → Bool
  | .pollStatus => true
  | _ => false

/-- Number of HTTP requests issued in a trace. -/
def numAttempts (evs : List Event) : Nat :=
  (evs.filter Event.isHttpAttempt).length

/-- Number of `process.poll()` status checks in a trace. -/
def numPolls (evs : List Event) : Nat :=
  (evs.filter Event.isPollStat).length

/-- `max_tries = 30` from `_run_flask_target`. -/
def max_tries : Nat := 30

/-- The expected body literal from the `assertEqual` call. -/
def expected_content : String := "hello world!"

/-- How the polling loop ended. `matched` models the `return` after the
`assertEqual` succeeds; `mismatch` models the `AssertionError` raised by
`assertEqual` on a differing body; `exhausted` models falling out of the
`for` loop with no response ever read. -/
inductive PollStatus where
  | matched
  | mismatch (content : String)
  | exhausted
deriving DecidableEq

/-- Result of the polling loop: its status, the `logs` list of stringified
caught exceptions, and the events it performed. -/
structure PollResult where
  status : PollStatus
  logs : List String
  events : List Event
deriving DecidableEq

/-- The sleep performed after a caught attempt: `time.sleep(5)` runs only
when `i < max_tries`. -/
def sleepEvents (i : Nat) : List Event :=
  if i < max_tries then [Event.sleepInterval] else []

/-- The body of `for i in range(max_tries + 1)`: `fuel` is the number of
iterations left, `i` the current loop index, `logs` and `events` the
accumulators. Each iteration issues one `urlopen`; a `response` returns or
raises the mismatch assertion at once; a caught `HTTPError`/`URLError` is
appended to `logs` and, when `i < max_tries`, followed by a sleep before
the next iteration. -/
def pollAux (oracle : Nat → AttemptOutcome) :
    Nat → Nat → List String → List Event → PollResult
  | 0, _, logs, events => ⟨.exhausted, logs, events⟩
  | fuel + 1, i, logs, events =>
    match oracle i with
    | .response body =>
      if body = expected_content then
        ⟨.matched, logs, events ++ [Event.httpAttempt i]⟩
      else
        ⟨.mismatch body, logs, events ++ [Event.httpAttempt i]⟩
    | .httpError msg =>
      pollAux oracle fuel (i + 1) (logs ++ [msg])
        (events ++ [Event.httpAttempt i] ++ sleepEvents i)
    | .urlError msg =>
      pollAux oracle fuel (i + 1) (logs ++ [msg])
        (events ++ [Event.httpAttempt i] ++ sleepEvents i)

/-- The whole polling loop: `max_tries + 1` iterations starting at `i = 0`
with empty accumulators. -/
def pollLoop (oracle : Nat → AttemptOutcome) : PollResult :=
  pollAux oracle (max_tries + 1) 0 [] []

/-- Outcome of one `_run_flask_target` run. `targetNotFound` is the
`assertTrue(example_dir.exists(), ...)` failure, `prematureExit` the
`self.fail` after a non-`None` initial `process.poll()`, `contentMismatch`
the `assertEqual` failure, `unreachable` the final `self.fail` carrying
the JSON-dumped `logs`. -/
inductive VerifyOutcome where
  | targetNotFound
  | prematureExit (code : Int)
  | success
  | contentMismatch (content : String)
  | unreachable (logs : List String)
deriving DecidableEq

/-- The external world of one run: whether the example directory exists,
the result of the single `process.poll()` after launch (`some code` when
the process already exited), the outcome of each HTTP attempt, and whether
`process.wait(timeout=5)` in the cleanup raises `TimeoutExpired`. -/
structure RunEnv where
  dirExists : Bool
  initialPoll : Option Int
  oracle : Nat → AttemptOutcome
  graceExpired : Bool

/-- The `finally` block of `_run_flask_target`: `process.terminate()`,
`process.wait(timeout=5)`, on `TimeoutExpired` `process.kill()` then an
unconditional `process.wait()`, and finally `time.sleep(1)`. -/
def cleanupEvents (graceExpired : Bool) : List Event :=
  [Event.terminate, Event.waitGrace]
    ++ (if graceExpired then [Event.kill, Event.waitFinal] else [])
    ++ [Event.sleepPostCleanup]

/-- Result of one `_run_flask_target` call: the verification outcome, the
event trace, and the updated `_tested_examples` registry. -/
structure RunResult where
  outcome : VerifyOutcome
  events : List Event
  tested : Finset String
deriving DecidableEq

/-- Shallow embedding of `FlaskExamplesTest._run_flask_target` (minus the
lock, which serializes whole calls and does not affect a single call's
behaviour). `tested` is the `_tested_examples` registry on entry; the
example name is added to it first, then the directory-existence assertion
runs, then the process is launched, its status polled once, and the
polling loop runs; every post-launch path goes through the cleanup
sequence. -/
def runFlaskTarget (tested : Finset String) (exName : String)
    (env : RunEnv) : RunResult :=
  if env.dirExists then
    match env.initialPoll with
    | some code =>
      { outcome := .prematureExit code
        events := [Event.launch, Event.pollStatus]
          ++ cleanupEvents env.graceExpired
        tested := insert exName tested }
    | none =>
      match (pollLoop env.oracle).status with
      | .matched =>
        { outcome := .success
          events := [Event.launch, Event.pollStatus]
            ++ (pollLoop env.oracle).events ++ cleanupEvents env.graceExpired
          tested := insert exName tested }
      | .mismatch c =>
        { outcome := .contentMismatch c
          events := [Event.launch, Event.pollStatus]
            ++ (pollLoop env.oracle).events ++ cleanupEvents env.graceExpired
          tested := insert exName tested }
      | .exhausted =>
        { outcome := .unreachable (pollLoop env.oracle).logs
          events := [Event.launch, Event.pollStatus]
            ++ (pollLoop env.oracle).events ++ cleanupEvents env.graceExpired
          tested := insert exName tested }
  else
    { outcome := .targetNotFound
      events := []
      tested := insert exName tested }

/-- One entry of `examples_dir.iterdir()` as seen by `tearDownClass`:
its name, whether it is a directory, and whether it contains a
`BUILD.bazel` file. -/
structure DirEntry where
  name : String
  isDir : Bool
  hasBuildBazel : Bool
deriving DecidableEq

/-- Python's `name.startswith(".")`: the first character is a dot. -/
def startsWithDot (s : String) : Bool :=
  match s.data with
  | c :: _ => c = '.'
  | [] => false

/-- The discovery scan of `tearDownClass`: keep directories, skip names
starting with "." and the name "__pycache__", keep only those containing
`BUILD.bazel`, and collect the names into a set. -/
def discoveredExamples (entries : List DirEntry) : Finset String :=
  ((entries.filter fun e =>
      e.isDir && !(startsWithDot e.name) && e.name != "__pycache__"
        && e.hasBuildBazel).map DirEntry.name).toFinset

/-- Outcome of the coverage audit in `tearDownClass`. -/
inductive AuditResult where
  | untestedFailure (names : Finset String)
  | phantomFailure (names : Finset String)
  | pass
deriving DecidableEq

/-- Shallow embedding of `FlaskExamplesTest.tearDownClass`: compute the
discovered example directories, fail on a non-empty `untested` difference
first, then on a non-empty `non_existent` difference, else pass. -/
def tearDownAudit (entries : List DirEntry) (tested : Finset String) :
    AuditResult :=
  let dirs := discoveredExamples entries
  if dirs \ tested = ∅ then
    if tested \ dirs = ∅ then .pass
    else .phantomFailure (tested \ dirs)
  else .untestedFailure (dirs \ tested)

/-- The root-path handler of `flask_hello_world.py`. -/
def hello_world : String := "hello world!"

/-- Value of a list of decimal digit characters. -/
def digitsVal (cs : List Char) : Nat :=
  cs.foldl (fun n c => n * 10 + (c.toNat - '0'.toNat)) 0

/-- Python's `int()` conversion on an optionally-signed string of decimal
digits (the inputs relevant here: the harness always passes `str(port)`);
`none` models `int` raising `ValueError`. -/
def pyInt (s : String) : Option Int :=
  match s.data with
  | '-' :: rest =>
    if rest ≠ [] ∧ rest.all Char.isDigit then some (-(digitsVal rest : Int))
    else none
  | ds =>
    if ds ≠ [] ∧ ds.all Char.isDigit then some (digitsVal ds : Int)
    else none

/-- The port computation of `flask_hello_world.py`'s main block:
`int(os.environ.get("FLASK_RUN_PORT", 5000))`. `envVar` is the value of
the `FLASK_RUN_PORT` environment variable when set; when unset, `get`
returns the default `5000` and `int(5000)` is `5000`. -/
def flask_run_port (envVar : Option String) : Option Int :=
  match envVar with
  | some s => pyInt s
  | none => some 5000

/-! ## Counting helpers -/

lemma numAttempts_nil : numAttempts [] = 0 := rfl

lemma numPolls_nil : numPolls [] = 0 := rfl

lemma numAttempts_append (a b : List Event) :
    numAttempts (a ++ b) = numAttempts a + numAttempts b := by
  simp [numAttempts, List.filter_append]

lemma numPolls_append (a b : List Event) :
    numPolls (a ++ b) = numPolls a + numPolls b := by
  simp [numPolls, List.filter_append]

lemma numAttempts_sleepEvents (i : Nat) : numAttempts (sleepEvents i) = 0 := by
  unfold sleepEvents; split <;> rfl

lemma numPolls_sleepEvents (i : Nat) : numPolls (sleepEvents i) = 0 := by
  unfold sleepEvents; split <;> rfl

lemma numAttempts_cleanup (b : Bool) : numAttempts (cleanupEvents b) = 0 := by
  cases b <;> rfl

lemma numPolls_cleanup (b : Bool) : numPolls (cleanupEvents b) = 0 := by
  cases b <;> rfl

/-! ## Polling-loop lemmas -/

/-- A retryable outcome is an `HTTPError` or a `URLError` with some
message. -/
lemma exists_msg_of_retryable (o : AttemptOutcome)
    (h : o.isRetryable = true) :
    ∃ m, o = .httpError m ∨ o = .urlError m := by
  cases o with
  | response b => simp [AttemptOutcome.isRetryable] at h
  | httpError m => exact ⟨m, Or.inl rfl⟩
  | urlError m => exact ⟨m, Or.inr rfl⟩

/-- One retried iteration of the loop, for either caught exception type. -/
lemma pollAux_retry (oracle : Nat → AttemptOutcome) (fuel i : Nat)
    (logs : List String) (events : List Event) (m : String)
    (h : oracle i = .httpError m ∨ oracle i = .urlError m) :
    pollAux oracle (fuel + 1) i logs events =
      pollAux oracle fuel (i + 1) (logs ++ [m])
        (events ++ [Event.httpAttempt i] ++ sleepEvents i) := by
  rcases h with h | h <;> simp [pollAux, h]

/-- If every reachable attempt raises a caught exception, the loop runs out
of fuel in the `exhausted` state, appending one log entry and issuing one
HTTP request per iteration, and never polls the process status. -/
lemma pollAux_exhaust (oracle : Nat → AttemptOutcome) :
    ∀ (fuel i : Nat) (logs : List String) (events : List Event),
      (∀ j, j < fuel → (oracle (i + j)).isRetryable = true) →
      (pollAux oracle fuel i logs events).status = .exhausted ∧
      (pollAux oracle fuel i logs events).logs.length = logs.length + fuel ∧
      numAttempts (pollAux oracle fuel i logs events).events
        = numAttempts events + fuel ∧
      numPolls (pollAux oracle fuel i logs events).events = numPolls events := by
  intro fuel
  induction fuel with
  | zero =>
    intro i logs events _
    simp [pollAux]
  | succ f ih =>
    intro i logs events h
    have h0 : (oracle i).isRetryable = true := by
      have := h 0 (Nat.succ_pos f)
      rwa [Nat.add_zero] at this
    obtain ⟨m, hm⟩ := exists_msg_of_retryable _ h0
    rw [pollAux_retry oracle f i logs events m hm]
    have hpre : ∀ j, j < f → (oracle (i + 1 + j)).isRetryable = true := by
      intro j hj
      have := h (j + 1) (Nat.succ_lt_succ hj)
      rwa [show i + (j + 1) = i + 1 + j by omega] at this
    obtain ⟨h1, h2, h3, h4⟩ := ih (i + 1) (logs ++ [m])
      (events ++ [Event.httpAttempt i] ++ sleepEvents i) hpre
    refine ⟨h1, ?_, ?_, ?_⟩
    · rw [h2]; simp; omega
    · rw [h3, numAttempts_append, numAttempts_append, numAttempts_sleepEvents]
      simp [numAttempts, Event.isHttpAttempt]; omega
    · rw [h4, numPolls_append, numPolls_append, numPolls_sleepEvents]
      simp [numPolls, Event.isPollStat]

/-- If the first `k` attempts raise caught exceptions and attempt `k`
yields a read response with body `b`, the loop stops at attempt `k`:
the status is decided by comparing `b` to the expected literal, exactly
`k` log entries were recorded and `k + 1` HTTP requests issued, and the
process status was never polled. -/
lemma pollAux_stops (oracle : Nat → AttemptOutcome) (b : String) :
    ∀ (k fuel i : Nat) (logs : List String) (events : List Event),
      k < fuel →
      (∀ j, j < k → (oracle (i + j)).isRetryable = true) →
      oracle (i + k) = .response b →
      (pollAux oracle fuel i logs events).status
        = (if b = expected_content then .matched else .mismatch b) ∧
      (pollAux oracle fuel i logs events).logs.length = logs.length + k ∧
      numAttempts (pollAux oracle fuel i logs events).events
        = numAttempts events + (k + 1) ∧
      numPolls (pollAux oracle fuel i logs events).events = numPolls events := by
  intro k
  induction k with
  | zero =>
    intro fuel i logs events hk _ hb
    rw [Nat.add_zero] at hb
    match fuel, hk with
    | f + 1, _ =>
      simp only [pollAux, hb]
      split <;>
        simp [numAttempts_append, numPolls_append, numAttempts, numPolls,
          Event.isHttpAttempt, Event.isPollStat]
  | succ k ih =>
    intro fuel i logs events hk hpre hb
    match fuel, hk with
    | f + 1, hk =>
      have h0 : (oracle i).isRetryable = true := by
        have := hpre 0 (Nat.succ_pos k)
        rwa [Nat.add_zero] at this
      obtain ⟨m, hm⟩ := exists_msg_of_retryable _ h0
      rw [pollAux_retry oracle f i logs events m hm]
      have hpre' : ∀ j, j < k → (oracle (i + 1 + j)).isRetryable = true := by
        intro j hj
        have := hpre (j + 1) (Nat.succ_lt_succ hj)
        rwa [show i + (j + 1) = i + 1 + j by omega] at this
      have hb' : oracle (i + 1 + k) = .response b := by
        rwa [show i + 1 + k = i + (k + 1) by omega]
      obtain ⟨h1, h2, h3, h4⟩ := ih f (i + 1) (logs ++ [m])
        (events ++ [Event.httpAttempt i] ++ sleepEvents i)
        (Nat.lt_of_succ_lt_succ hk) hpre' hb'
      refine ⟨h1, ?_, ?_, ?_⟩
      · rw [h2]; simp; omega
      · rw [h3, numAttempts_append, numAttempts_append,
          numAttempts_sleepEvents]
        simp [numAttempts, Event.isHttpAttempt]; omega
      · rw [h4, numPolls_append, numPolls_append, numPolls_sleepEvents]
        simp [numPolls, Event.isPollStat]

/-! ## Run-level glue lemmas -/

/-- When the directory exists and the process exited before the first
status poll, the run fails with `prematureExit` and its trace is launch,
one status poll, and the cleanup. -/
lemma runFlaskTarget_premature (tested : Finset String) (exName : String)
    (env : RunEnv) (code : Int) (hd : env.dirExists = true)
    (hp : env.initialPoll = some code) :
    runFlaskTarget tested exName env =
      { outcome := .prematureExit code
        events := [Event.launch, Event.pollStatus]
          ++ cleanupEvents env.graceExpired
        tested := insert exName tested } := by
  simp [runFlaskTarget, hd, hp]

/-- When the directory exists and the initial status poll returns `None`,
the run's trace is launch, one status poll, the polling-loop events, and
the cleanup — whatever the loop's status. -/
lemma runFlaskTarget_events (tested : Finset String) (exName : String)
    (env : RunEnv) (hd : env.dirExists = true)
    (hp : env.initialPoll = none) :
    (runFlaskTarget tested exName env).events =
      [Event.launch, Event.pollStatus] ++ (pollLoop env.oracle).events
        ++ cleanupEvents env.graceExpired := by
  simp only [runFlaskTarget, hd, hp, if_true]
  cases (pollLoop env.oracle).status <;> rfl

/-- Outcome of a run whose polling loop exhausted its attempts. -/
lemma runFlaskTarget_outcome_exhausted (tested : Finset String)
    (exName : String) (env : RunEnv) (hd : env.dirExists = true)
    (hp : env.initialPoll = none)
    (hs : (pollLoop env.oracle).status = .exhausted) :
    (runFlaskTarget tested exName env).outcome
      = .unreachable (pollLoop env.oracle).logs := by
  simp [runFlaskTarget, hd, hp, hs]

/-- Outcome of a run whose polling loop read the expected body. -/
lemma runFlaskTarget_outcome_matched (tested : Finset String)
    (exName : String) (env : RunEnv) (hd : env.dirExists = true)
    (hp : env.initialPoll = none)
    (hs : (pollLoop env.oracle).status = .matched) :
    (runFlaskTarget tested exName env).outcome = .success := by
  simp [runFlaskTarget, hd, hp, hs]

/-- Outcome of a run whose polling loop read a differing body. -/
lemma runFlaskTarget_outcome_mismatch (tested : Finset String)
    (exName : String) (env : RunEnv) (c : String) (hd : env.dirExists = true)
    (hp : env.initialPoll = none)
    (hs : (pollLoop env.oracle).status = .mismatch c) :
    (runFlaskTarget tested exName env).outcome = .contentMismatch c := by
  simp [runFlaskTarget, hd, hp, hs]

/-- Whatever the oracle, the polling loop never polls the process status. -/
lemma pollAux_numPolls (oracle : Nat → AttemptOutcome) :
    ∀ (fuel i : Nat) (logs : List String) (events : List Event),
      numPolls (pollAux oracle fuel i logs events).events = numPolls events := by
  intro fuel
  induction fuel with
  | zero => intro i logs events; rfl
  | succ f ih =>
    intro i logs events
    cases ho : oracle i with
    | response b =>
      simp only [pollAux, ho]
      split <;>
        simp [numPolls_append, numPolls, Event.isPollStat]
    | httpError m =>
      rw [pollAux_retry oracle f i logs events m (Or.inl ho), ih,
        numPolls_append, numPolls_append, numPolls_sleepEvents]
      simp [numPolls, Event.isPollStat]
    | urlError m =>
      rw [pollAux_retry oracle f i logs events m (Or.inr ho), ih,
        numPolls_append, numPolls_append, numPolls_sleepEvents]
      simp [numPolls, Event.isPollStat]

/-! ## Claim theorems -/

/-- Claim C7: if the target directory does not exist, verification fails
immediately with the target-not-found condition and no external process is
launched (the event trace is empty). -/
theorem C7_target_not_found (tested : Finset String) (exName : String)
    (env : RunEnv) (hd : env.dirExists = false) :
    (runFlaskTarget tested exName env).outcome = .targetNotFound ∧
    (runFlaskTarget tested exName env).events = [] := by
  simp [runFlaskTarget, hd]

/-- Witness for C7 at a concrete environment. -/
theorem C7_target_not_found_witness :
    (runFlaskTarget ∅ "rules_venv"
        ⟨false, none, fun _ => .urlError "refused", false⟩).outcome
      = .targetNotFound ∧
    (runFlaskTarget ∅ "rules_venv"
        ⟨false, none, fun _ => .urlError "refused", false⟩).events = [] :=
  C7_target_not_found ∅ "rules_venv" _ rfl

/-- Claim C9: every call adds the example name to the registry of tested
examples, whatever the outcome — in particular a run against a
non-existent directory still registers the name. -/
theorem C9_registry_always_updated (tested : Finset String) (exName : String)
    (env : RunEnv) :
    (runFlaskTarget tested exName env).tested = insert exName tested := by
  rcases env with ⟨d, p, o, g⟩
  cases d with
  | false => rfl
  | true =>
    cases p with
    | none => cases h : (pollLoop o).status <;> simp [runFlaskTarget, h]
    | some code => rfl

/-- Witness for C9 at a concrete run against a missing directory: the
name is registered even though the verification fails at once. -/
theorem C9_registry_always_updated_witness :
    (runFlaskTarget ∅ "rules_venv"
        ⟨false, none, fun _ => .urlError "refused", false⟩).tested
      = insert "rules_venv" ∅ :=
  C9_registry_always_updated ∅ "rules_venv"
    ⟨false, none, fun _ => .urlError "refused", false⟩

/-- Claim C10: the root-path handler of the example application returns
exactly "hello world!", and the main block's port is the integer value of
the FLASK_RUN_PORT environment variable, defaulting to 5000 when unset. -/
theorem C10_flask_app :
    hello_world = "hello world!" ∧
    flask_run_port none = some 5000 ∧
    flask_run_port (some "8080") = some 8080 ∧
    (∀ s : String, flask_run_port (some s) = pyInt s) :=
  ⟨rfl, rfl, by decide, fun _ => rfl⟩

/-- Witness for C10 at a concrete port string. -/
theorem C10_flask_app_witness :
    hello_world = "hello world!" ∧
    flask_run_port (some "5001") = pyInt "5001" :=
  ⟨C10_flask_app.1, C10_flask_app.2.2.2 "5001"⟩

/-- Claim C4: once the directory exists the process status is polled
exactly once, immediately after launch; if the process has already
terminated, the run fails with `prematureExit` carrying the exit code and
issues no HTTP request. -/
theorem C4_immediate_exit_check (tested : Finset String) (exName : String)
    (env : RunEnv) (hd : env.dirExists = true) :
    numPolls (runFlaskTarget tested exName env).events = 1 ∧
    (∀ code, env.initialPoll = some code →
      (runFlaskTarget tested exName env).outcome = .prematureExit code ∧
      numAttempts (runFlaskTarget tested exName env).events = 0) := by
  constructor
  · rcases hp : env.initialPoll with _ | code
    · rw [runFlaskTarget_events tested exName env hd hp, numPolls_append,
        numPolls_append, numPolls_cleanup]
      have h0 : numPolls (pollLoop env.oracle).events = 0 :=
        pollAux_numPolls env.oracle (max_tries + 1) 0 [] []
      rw [h0]; rfl
    · rw [runFlaskTarget_premature tested exName env code hd hp]
      simp only [numPolls_append, numPolls_cleanup]
      rfl
  · intro code hp
    rw [runFlaskTarget_premature tested exName env code hd hp]
    refine ⟨rfl, ?_⟩
    simp only [numAttempts_append, numAttempts_cleanup]
    rfl

/-- Witness for C4 at a concrete environment whose process exits with
code 3 before the status poll. -/
theorem C4_immediate_exit_check_witness :
    numPolls (runFlaskTarget ∅ "rules_venv"
        ⟨true, some 3, fun _ => .urlError "refused", false⟩).events = 1 ∧
    (runFlaskTarget ∅ "rules_venv"
        ⟨true, some 3, fun _ => .urlError "refused", false⟩).outcome
      = .prematureExit 3 ∧
    numAttempts (runFlaskTarget ∅ "rules_venv"
        ⟨true, some 3, fun _ => .urlError "refused", false⟩).events = 0 := by
  have h := C4_immediate_exit_check ∅ "rules_venv"
    ⟨true, some 3, fun _ => .urlError "refused", false⟩ rfl
  exact ⟨h.1, (h.2 3 rfl).1, (h.2 3 rfl).2⟩

/-- Claim C5: on every exit path of a launched run the cleanup sequence is
the final suffix of the trace: terminate, the bounded grace wait, then —
exactly when the grace wait expired — kill followed by the unconditional
wait, and finally the one-second pause. -/
theorem C5_cleanup_always_runs (tested : Finset String) (exName : String)
    (env : RunEnv) (hd : env.dirExists = true) :
    (cleanupEvents env.graceExpired).IsSuffix
      (runFlaskTarget tested exName env).events ∧
    cleanupEvents env.graceExpired
      = [Event.terminate, Event.waitGrace]
          ++ (if env.graceExpired then [Event.kill, Event.waitFinal] else [])
          ++ [Event.sleepPostCleanup] := by
  refine ⟨?_, rfl⟩
  rcases hp : env.initialPoll with _ | code
  · exact ⟨_, (runFlaskTarget_events tested exName env hd hp).symm⟩
  · rw [runFlaskTarget_premature tested exName env code hd hp]
    exact ⟨[Event.launch, Event.pollStatus], rfl⟩

/-- Witness for C5 at a concrete environment (successful run whose grace
wait expires, so the kill path is taken). -/
theorem C5_cleanup_always_runs_witness :
    (cleanupEvents true).IsSuffix
      (runFlaskTarget ∅ "rules_venv"
        ⟨true, none, fun _ => .response "hello world!", true⟩).events ∧
    cleanupEvents true
      = [Event.terminate, Event.waitGrace, Event.kill, Event.waitFinal,
          Event.sleepPostCleanup] := by
  have h := C5_cleanup_always_runs ∅ "rules_venv"
    ⟨true, none, fun _ => .response "hello world!", true⟩ rfl
  exact ⟨h.1, rfl⟩

/-- A connection-level error is caught by the retry clause. -/
lemma retryable_of_connError (o : AttemptOutcome)
    (h : o.isConnError = true) : o.isRetryable = true := by
  cases o <;>
    simp_all [AttemptOutcome.isConnError, AttemptOutcome.isRetryable]

/-- An attempt oracle where every `urlopen` raises connection-refused. -/
def allRefused : Nat → AttemptOutcome :=
  fun _ => .urlError "connection refused"

/-- Counterexample to C1 as stated: when every attempt raises a
connection-level error, the loop `for i in range(max_tries + 1)` performs
31 HTTP attempts and records 31 log entries, not 30. -/
theorem C1_counterexample :
    (runFlaskTarget ∅ "rules_venv" ⟨true, none, allRefused, false⟩).outcome
      = .unreachable (pollLoop allRefused).logs ∧
    (pollLoop allRefused).logs.length = 31 ∧
    numAttempts (runFlaskTarget ∅ "rules_venv"
      ⟨true, none, allRefused, false⟩).events = 31 ∧
    ¬ (pollLoop allRefused).logs.length = 30 := by
  refine ⟨by decide, by decide, by decide, by decide⟩

/-- Claim C1 (amended): if every polling attempt raises a connection-level
error, verification performs exactly `max_tries + 1 = 31` HTTP attempts,
fails with the unreachable condition carrying the attempt log, and that
log has exactly 31 entries (one per attempt). -/
theorem C1_amended_unreachable (tested : Finset String) (exName : String)
    (env : RunEnv) (hd : env.dirExists = true) (hp : env.initialPoll = none)
    (hconn : ∀ i, (env.oracle i).isConnError = true) :
    (runFlaskTarget tested exName env).outcome
      = .unreachable (pollLoop env.oracle).logs ∧
    (pollLoop env.oracle).logs.length = max_tries + 1 ∧
    numAttempts (runFlaskTarget tested exName env).events = max_tries + 1 := by
  have hret : ∀ j, j < max_tries + 1 →
      (env.oracle (0 + j)).isRetryable = true :=
    fun j _ => retryable_of_connError _ (hconn (0 + j))
  obtain ⟨h1, h2, h3, _⟩ :=
    pollAux_exhaust env.oracle (max_tries + 1) 0 [] [] hret
  refine ⟨runFlaskTarget_outcome_exhausted tested exName env hd hp h1,
    by simpa using h2, ?_⟩
  rw [runFlaskTarget_events tested exName env hd hp, numAttempts_append,
    numAttempts_append, numAttempts_cleanup]
  have h0 : numAttempts [Event.launch, Event.pollStatus] = 0 := rfl
  rw [h0]
  simpa using h3

/-- Witness for the amended C1 at a concrete environment. -/
theorem C1_amended_unreachable_witness :
    (runFlaskTarget ∅ "rules_venv" ⟨true, none, allRefused, false⟩).outcome
      = .unreachable (pollLoop allRefused).logs ∧
    (pollLoop allRefused).logs.length = max_tries + 1 ∧
    numAttempts (runFlaskTarget ∅ "rules_venv"
      ⟨true, none, allRefused, false⟩).events = max_tries + 1 :=
  C1_amended_unreachable ∅ "rules_venv" ⟨true, none, allRefused, false⟩
    rfl rfl (fun _ => rfl)

/-- Attempt oracle whose attempt 0 raises `HTTPError` (an HTTP response
with an error status) and whose later attempts read the expected body. -/
def http500ThenOk : Nat → AttemptOutcome := fun i =>
  if i = 0 then .httpError "HTTP Error 500: INTERNAL SERVER ERROR"
  else .response "hello world!"

/-- Counterexample to C2 as stated: attempt 0 yields an HTTP response with
an error status, yet polling does not stop at that attempt — the
`except (HTTPError, URLError)` clause logs it and retries, and the run
succeeds on attempt 1 after two HTTP requests. -/
theorem C2_counterexample :
    (runFlaskTarget ∅ "rules_venv"
      ⟨true, none, http500ThenOk, false⟩).outcome = .success ∧
    numAttempts (runFlaskTarget ∅ "rules_venv"
      ⟨true, none, http500ThenOk, false⟩).events = 2 ∧
    (pollLoop http500ThenOk).logs
      = ["HTTP Error 500: INTERNAL SERVER ERROR"] := by
  refine ⟨by decide, by decide, by decide⟩

/-- Claim C2 (amended): polling stops at the first attempt whose `urlopen`
returns a response without raising (a success-status response), and that
response's body is final; attempts raising `HTTPError` (HTTP error-status
responses) and `URLError` (connection-level errors) are both logged into
the attempt log and retried. -/
theorem C2_amended_stop_condition (oracle : Nat → AttemptOutcome) (k : Nat)
    (b : String) (hk : k ≤ max_tries)
    (hpre : ∀ j, j < k → (oracle j).isRetryable = true)
    (hb : oracle k = .response b) :
    (pollLoop oracle).status ≠ .exhausted ∧
    numAttempts (pollLoop oracle).events = k + 1 ∧
    (pollLoop oracle).logs.length = k := by
  obtain ⟨h1, h2, h3, _⟩ := pollAux_stops oracle b k (max_tries + 1) 0 [] []
    (Nat.lt_succ_of_le hk) (fun j hj => by simpa using hpre j hj)
    (by simpa using hb)
  refine ⟨?_, by simpa [numAttempts_nil] using h3, by simpa using h2⟩
  unfold pollLoop
  rw [h1]
  split <;> simp

/-- Witness for the amended C2: the HTTP-500-then-OK oracle stops at
attempt 1 with one logged entry. -/
theorem C2_amended_stop_condition_witness :
    (pollLoop http500ThenOk).status ≠ .exhausted ∧
    numAttempts (pollLoop http500ThenOk).events = 2 ∧
    (pollLoop http500ThenOk).logs.length = 1 :=
  C2_amended_stop_condition http500ThenOk 1 "hello world!" (by decide)
    (fun j hj => by
      have hj0 : j = 0 := by omega
      subst hj0; rfl)
    rfl

/-- Claim C3: at the first attempt whose connection succeeds (`urlopen`
returns a response), a body equal to the expected literal means the run
succeeds, and a differing body means the run fails at once with the
content-mismatch condition — in both cases after exactly `k + 1` HTTP
requests, with no further attempts. -/
theorem C3_first_response_decides (tested : Finset String) (exName : String)
    (env : RunEnv) (k : Nat) (b : String) (hd : env.dirExists = true)
    (hp : env.initialPoll = none) (hk : k ≤ max_tries)
    (hpre : ∀ j, j < k → (env.oracle j).isRetryable = true)
    (hb : env.oracle k = .response b) :
    (b = expected_content →
      (runFlaskTarget tested exName env).outcome = .success) ∧
    (b ≠ expected_content →
      (runFlaskTarget tested exName env).outcome = .contentMismatch b) ∧
    numAttempts (runFlaskTarget tested exName env).events = k + 1 := by
  obtain ⟨h1, h2, h3, _⟩ := pollAux_stops env.oracle b k (max_tries + 1) 0
    [] [] (Nat.lt_succ_of_le hk) (fun j hj => by simpa using hpre j hj)
    (by simpa using hb)
  have hstat : (pollLoop env.oracle).status
      = if b = expected_content then .matched else .mismatch b := h1
  refine ⟨?_, ?_, ?_⟩
  · intro hbe
    exact runFlaskTarget_outcome_matched tested exName env hd hp
      (by rw [hstat, if_pos hbe])
  · intro hbe
    exact runFlaskTarget_outcome_mismatch tested exName env b hd hp
      (by rw [hstat, if_neg hbe])
  · rw [runFlaskTarget_events tested exName env hd hp, numAttempts_append,
      numAttempts_append, numAttempts_cleanup]
    have h0 : numAttempts [Event.launch, Event.pollStatus] = 0 := rfl
    rw [h0]
    simpa [numAttempts_nil] using h3

/-- Witness for C3: a server answering "goodbye world" on its first
attempt makes the run fail with content-mismatch after one HTTP request. -/
theorem C3_first_response_decides_witness :
    (runFlaskTarget ∅ "rules_venv"
      ⟨true, none, fun _ => .response "goodbye world", false⟩).outcome
      = .contentMismatch "goodbye world" ∧
    numAttempts (runFlaskTarget ∅ "rules_venv"
      ⟨true, none, fun _ => .response "goodbye world", false⟩).events = 1 := by
  have h := C3_first_response_decides ∅ "rules_venv"
    ⟨true, none, fun _ => .response "goodbye world", false⟩ 0 "goodbye world"
    rfl rfl (by decide) (fun j hj => absurd hj (Nat.not_lt_zero j)) rfl
  exact ⟨h.2.1 (by decide), h.2.2⟩

/-- Claim C6: the coverage audit fails with exactly the untested names
when some discovered example directory was never tested; it fails with
exactly the phantom names when every discovered directory was tested but
some tested name was not discovered; and it passes exactly when the
tested set equals the discovered set. -/
theorem C6_coverage_audit (entries : List DirEntry) (tested : Finset String) :
    (discoveredExamples entries \ tested ≠ ∅ →
      tearDownAudit entries tested
        = .untestedFailure (discoveredExamples entries \ tested)) ∧
    (discoveredExamples entries \ tested = ∅ →
      tested \ discoveredExamples entries ≠ ∅ →
      tearDownAudit entries tested
        = .phantomFailure (tested \ discoveredExamples entries)) ∧
    (tearDownAudit entries tested = .pass ↔
      tested = discoveredExamples entries) := by
  refine ⟨?_, ?_, ?_⟩
  · intro hne
    unfold tearDownAudit
    rw [if_neg hne]
  · intro h1 h2
    unfold tearDownAudit
    rw [if_pos h1, if_neg h2]
  · unfold tearDownAudit
    by_cases h1 : discoveredExamples entries \ tested = ∅
    · by_cases h2 : tested \ discoveredExamples entries = ∅
      · rw [if_pos h1, if_pos h2]
        have hsub1 : discoveredExamples entries ⊆ tested :=
          Finset.sdiff_eq_empty_iff_subset.mp h1
        have hsub2 : tested ⊆ discoveredExamples entries :=
          Finset.sdiff_eq_empty_iff_subset.mp h2
        simp [Finset.Subset.antisymm hsub2 hsub1]
      · rw [if_pos h1, if_neg h2]
        constructor
        · intro hcontra
          exact absurd hcontra (by simp)
        · intro heq
          exact absurd (by rw [heq, Finset.sdiff_self]) h2
    · rw [if_neg h1]
      constructor
      · intro hcontra
        exact absurd hcontra (by simp)
      · intro heq
        exact absurd (by rw [heq, Finset.sdiff_self]) h1

/-- Witness for C6: with one discovered directory "rules_venv" and an
empty registry, the audit fails listing exactly "rules_venv" as untested. -/
theorem C6_coverage_audit_witness :
    tearDownAudit [⟨"rules_venv", true, true⟩] ∅
      = .untestedFailure
          (discoveredExamples [⟨"rules_venv", true, true⟩] \ ∅) :=
  (C6_coverage_audit [⟨"rules_venv", true, true⟩] ∅).1 (by decide)

end PexExamples
